import Mathlib

/-!
Shallow embedding of the Gmail-Agent toolset (`src/tools/gmailapi/gmail_tools.py`
and `src/utils.py`) and proofs about its credential resolution, email
fetching/filtering, reply construction, calendar free-slot computation and
HTML-detection formatting logic.

Modelling conventions:
* The external Gmail/Calendar service is a parameter: message lookup, thread
  lookup and date parsing are functions passed to the embedded operations;
  a `none` result models the Python call raising an exception.
* `json.loads` / `json.load` are modelled by a parameter
  `parse : String → Option Json`; `none` models `JSONDecodeError`.  A parse
  result of JSON `null` leaves the Python variable `token_data` equal to
  `None`, which the embedding reflects explicitly.
* Python strings are Lean `String`s; `x in y` is substring containment
  (`strContains`), `str.strip` is `pyStrip`, `str.startswith` is
  `pyStartsWith`, all defined over `String.data` so they evaluate by `decide`.
* Times inside one calendar day are minutes from that day's midnight, as
  `Int`; `datetime(y, m, d, 9, 0)` becomes `540` and `datetime(y, m, d, 17, 0)`
  becomes `1020`.  Base64 body data is modelled already decoded.
* Python's stable `list.sort(key=...)` is modelled by `List.insertionSort`
  on the key order, which is also stable.
* A generator is modelled as the list of its yields: the per-message
  `try/except` block of `fetch_group_emails` yields at most one item per
  message, so the generator is `List.filterMap` of the per-message step.
-/

namespace GmailAgent

/-! ## Python-string primitives -/

/-- Containment of `pat` in `hay` as a character-list scan; this is the
model of Python's `pat in hay` substring test. -/
def listContains (pat : List Char) : List Char → Bool
  | [] => pat.isEmpty
  | c :: rest => pat.isPrefixOf (c :: rest) || listContains pat rest

/-- Model of Python `needle in hay` on strings. -/
def strContains (hay needle : String) : Bool :=
  listContains needle.data hay.data

/-- Model of Python `s.startswith (p)`. -/
def pyStartsWith (s p : String) : Bool :=
  p.data.isPrefixOf s.data

/-- Model of Python `s.strip ()` (whitespace stripped from both ends). -/
def pyStrip (s : String) : String :=
  ⟨((s.data.dropWhile Char.isWhitespace).reverse.dropWhile Char.isWhitespace).reverse⟩

/-! ## JSON values and credential loading (`get_credentials`, lines 51-119) -/

/-- JSON values, the results of `json.loads`. -/
inductive Json where
  | null
  | bool (b : Bool)
  | num (n : Int)
  | str (s : String)
  | arr (elems : List Json)
  | obj (fields : List (String × Json))

/-- Model of Python `dict.get (key)` on a JSON value: `none` when the value
is not an object or the key is missing. -/
def Json.get? : Json → String → Option Json
  | .obj fields, key => (fields.find? (fun p => p.1 == key)).map (fun p => p.2)
  | _, _ => none

/-- Credentials object constructed at the end of `get_credentials`
(lines 110-117), with the source's defaults for `token_uri` and `scopes`. -/
structure Credentials where
  token : Option Json
  refresh_token : Option Json
  token_uri : Json
  client_id : Option Json
  client_secret : Option Json
  scopes : Json

/-- One attempt of `json.loads` on a source string, as it affects the Python
variable `token_data`: a `JSONDecodeError` (modelled by `parse s = none`) is
caught and leaves `token_data = None`; a successful parse of JSON `null`
also leaves `token_data = None`, since Python's `None` is the JSON null. -/
def loadsAttempt (parse : String → Option Json) (s : String) : Option Json :=
  match parse s with
  | some Json.null => none
  | r => r

/-- Resolution of `token_data` in `get_credentials` (lines 70-98), written
exactly in the source's sequential shape: the explicitly passed
`gmail_token` parameter first (skipped when falsy, i.e. the empty string),
then the `GMAIL_TOKEN` environment variable (likewise), then the contents of
the `.secrets/token.json` file (`file_content = none` models a missing or
unreadable file). -/
def resolveTokenData (parse : String → Option Json)
    (gmail_token env_token file_content : Option String) : Option Json :=
  -- try directly passed token parameter (lines 74-79)
  let token_data : Option Json :=
    match gmail_token with
    | some s => if s = "" then none else loadsAttempt parse s
    | none => none
  -- try environment variable (lines 82-89)
  let token_data : Option Json :=
    match token_data with
    | some j => some j
    | none =>
      match env_token with
      | some s => if s = "" then none else loadsAttempt parse s
      | none => none
  -- try local file (lines 92-98)
  let token_data : Option Json :=
    match token_data with
    | some j => some j
    | none =>
      match file_content with
      | some s => loadsAttempt parse s
      | none => none
  token_data

/-- Error message raised when no credential source is available
(lines 102-107). -/
def credentialsErrorMessage : String :=
  "No Gmail credentials found. Please provide credentials via:\n1. gmail_token parameter\n2. GMAIL_TOKEN environment variable\n3. .secrets/token.json file"

/-- Model of `get_credentials` (lines 51-119): resolve `token_data` from the
three sources, raise `ValueError` (the `Except.error` branch) when none is
available, otherwise build the `Credentials` object. -/
def get_credentials (parse : String → Option Json)
    (gmail_token env_token file_content : Option String) :
    Except String Credentials :=
  match resolveTokenData parse gmail_token env_token file_content with
  | none => .error credentialsErrorMessage
  | some token_data =>
    .ok {
      token := token_data.get? "token"
      refresh_token := token_data.get? "refresh_token"
      token_uri := (token_data.get? "token_uri").getD
        (.str "https://oauth2.googleapis.com/token")
      client_id := token_data.get? "client_id"
      client_secret := token_data.get? "client_secret"
      scopes := (token_data.get? "scopes").getD
        (.arr [.str "https://www.googleapis.com/auth/gmail.modify"])
    }

/-- Availability of a single credential source, following the spec's words:
the source's content must be present, truthy where the code checks
truthiness, and yield usable (non-null) token data when parsed as JSON. -/
def sourceAvailable (parse : String → Option Json) (truthyCheck : Bool)
    (content : Option String) : Option Json :=
  content.bind (fun s =>
    if truthyCheck ∧ s = "" then none else loadsAttempt parse s)

/-- Specification-side resolution: the first available source, in the
priority order parameter, then environment variable, then local file. -/
def firstAvailableSource (parse : String → Option Json)
    (gmail_token env_token file_content : Option String) : Option Json :=
  [sourceAvailable parse true gmail_token,
   sourceAvailable parse true env_token,
   sourceAvailable parse false file_content].findSome? id

/-! ## Formatting utilities (`src/utils.py`, `format_gmail_markdown`) -/

/-- HTML-detection condition of `format_gmail_markdown` (lines 20-22 of
`utils.py`): the body is truthy and either its stripped form starts with
a doctype or html tag, or it contains a body tag anywhere. -/
def isHtmlBody (email_thread : String) : Bool :=
  (email_thread != "") &&
    (pyStartsWith (pyStrip email_thread) "<!DOCTYPE" ||
     pyStartsWith (pyStrip email_thread) "<html" ||
     strContains email_thread "<body")

/-- The markdown template returned by `format_gmail_markdown`
(lines 30-36 of `utils.py`), applied to an already-chosen body text. -/
def gmailMarkdownTemplate (subject author toAddr id_section email_thread : String) :
    String :=
  "\n        **Subject**: " ++ subject ++
  "\n        **From**: " ++ author ++
  "\n        **To**: " ++ toAddr ++ id_section ++
  "\n        " ++ email_thread ++
  "\n        ---\n    "

/-- The id section of `format_gmail_markdown` (line 17 of `utils.py`):
`email_id` is `none` for Python `None`, and a falsy id (missing or empty)
produces an empty section. -/
def idSection (email_id : Option String) : String :=
  match email_id with
  | some i => if i = "" then "" else "\n**ID**: " ++ i
  | none => ""

/-- Model of `format_gmail_markdown` (lines 6-36 of `utils.py`).  The
`html2text.HTML2Text().handle` conversion is the parameter `htmlToText`;
the body is converted when the HTML-detection condition holds, and the
template is filled with the chosen body. -/
def format_gmail_markdown (htmlToText : String → String)
    (subject author toAddr email_thread : String) (email_id : Option String) :
    String :=
  let id_section := idSection email_id
  let email_thread :=
    if isHtmlBody email_thread then htmlToText email_thread else email_thread
  gmailMarkdownTemplate subject author toAddr id_section email_thread

/-- Marker containment as the claim words it: the body contains a doctype,
html, or body tag anywhere. -/
def containsHtmlMarker (email_thread : String) : Bool :=
  strContains email_thread "<!DOCTYPE" ||
  strContains email_thread "<html" ||
  strContains email_thread "<body"

/-! ## Email payloads and body extraction (`extract_message_part`, lines 30-48) -/

/-- MIME payload of a Gmail message: headers, optional body data (modelled
already base64-decoded), and sub-parts. -/
inductive Payload where
  | mk (headers : List (String × String)) (bodyData : Option String)
       (parts : List Payload)

/-- Header list of a payload. -/
def Payload.headers : Payload → List (String × String)
  | .mk h _ _ => h

/-- Body data of a payload. -/
def Payload.bodyData : Payload → Option String
  | .mk _ b _ => b

/-- Sub-parts of a payload. -/
def Payload.parts : Payload → List Payload
  | .mk _ _ p => p

mutual

/-- Model of `extract_message_part` (lines 30-48): return the payload's own
body data when truthy, otherwise join the non-empty texts of the sub-parts
with newlines (the join of no parts is the empty string, as in the source's
final `return ""`). -/
def extract_message_part : Payload → String
  | .mk _ bodyData parts =>
    let texts := (collectPartTexts parts).filter (fun s => s != "")
    let joined := String.intercalate "\n" texts
    match bodyData with
    | some data => if data = "" then joined else data
    | none => joined

/-- Texts of a list of sub-parts, in order (the source's loop over
`payload ["parts"]` before the truthiness filter). -/
def collectPartTexts : List Payload → List String
  | [] => []
  | p :: rest => extract_message_part p :: collectPartTexts rest

end

/-- Model of `next (h ["value"] for h in headers if h ["name"] == name)`:
the value of the first header with the given name; `none` models the
`StopIteration` the Python expression raises when no header matches. -/
def headerFirst (headers : List (String × String)) (name : String) :
    Option String :=
  (headers.find? (fun h => h.1 == name)).map (fun h => h.2)

/-- A full Gmail message as returned by `messages().get`: its id, thread
id, optional `internalDate` (epoch milliseconds) and MIME payload. -/
structure GmailMessage where
  id : String
  threadId : String
  internalDate : Option Int
  payload : Payload

/-! ## Reply construction and sending (`send_email`, lines 288-350) -/

/-- Reply-subject computation of `send_email` (lines 323-325): prefix the
subject with `Re: ` unless it already starts with `Re:`. -/
def replySubject (subject : String) : String :=
  if pyStartsWith subject "Re:" then subject else "Re: " ++ subject

/-- The reply message submitted by `send_email` (lines 335-347): the MIME
text with its to/from/subject/cc headers, threaded into the original
thread. -/
structure SentReply where
  toAddr : String
  fromAddr : String
  subject : String
  cc : Option String
  bodyText : String
  threadId : String

/-- Model of `send_email` (lines 288-350).  `getMessage` is the
`messages().get` call; `none` models the lookup raising.  Any failure in
the try block of lines 318-330, including a missing Subject or From header
(a `StopIteration` from `next`), is re-raised as the `ValueError` of
line 332, whose message names the original message id.  On success the
function submits the reply and returns `True`, modelled by returning the
submitted reply. -/
def send_email (getMessage : String → Option GmailMessage)
    (email_id response_text email_address : String)
    (addn_recipients : Option (List String)) : Except String SentReply :=
  let failMsg := fun (reason : String) =>
    "Could not retrieve original message " ++ email_id ++ ": " ++ reason
  match getMessage email_id with
  | none => .error (failMsg "message lookup failed")
  | some message =>
    match headerFirst message.payload.headers "Subject" with
    | none => .error (failMsg "no Subject header")
    | some subject =>
      match headerFirst message.payload.headers "From" with
      | none => .error (failMsg "no From header")
      | some original_from =>
        .ok {
          toAddr := original_from
          fromAddr := email_address
          subject := replySubject subject
          cc :=
            match addn_recipients with
            | some l => if l.isEmpty then none else some (String.intercalate ", " l)
            | none => none
          bodyText := response_text
          threadId := message.threadId
        }

/-! ## Email fetching (`fetch_group_emails`, lines 122-285) -/

/-- A message stub as returned by `messages().list` pagination: its id and
thread id.  The paginated search of lines 174-194 produces the list of
stubs the processing loop iterates over. -/
structure MsgStub where
  id : String
  threadId : String

/-- The external Gmail service seen by `fetch_group_emails`: full-message
lookup, thread lookup, and `dateutil` date parsing composed with
`isoformat` (a `none` models the corresponding Python call raising). -/
structure GmailEnv where
  getMessage : String → Option GmailMessage
  getThread : String → Option (List GmailMessage)
  parseTime : String → Option String

/-- Thread ordering of lines 211-215: a stable sort by `internalDate` when
every message in the thread has one, otherwise a stable sort by message
id. -/
def sortThread (messages_in_thread : List GmailMessage) : List GmailMessage :=
  if messages_in_thread.all (fun m => m.internalDate.isSome) then
    List.insertionSort
      (fun a b => a.internalDate.getD 0 ≤ b.internalDate.getD 0)
      messages_in_thread
  else
    List.insertionSort (fun a b => a.id ≤ b.id) messages_in_thread

/-- A full email record yielded by `fetch_group_emails` (lines 271-279). -/
structure EmailRecord where
  from_email : String
  to_email : String
  subject : String
  page_content : String
  id : String
  thread_id : String
  send_time : String
deriving DecidableEq

/-- One yield of the `fetch_group_emails` generator: either the
already-responded marker of lines 226-230 or a full email record. -/
inductive FetchItem where
  | userRespond (id : String) (thread_id : String)
  | record (r : EmailRecord)
deriving DecidableEq

/-- Processing of a single listed message, the body of the `for` loop of
lines 199-283.  A `none` result covers both the `except` branch (any
failure during get/thread/header/date handling is caught, logged and the
message skipped) and the filter branch of lines 242-247 that yields
nothing. -/
def processMessage (env : GmailEnv) (email_address : String)
    (skip_filters : Bool) (message : MsgStub) : Option FetchItem :=
  -- get full message details (lines 202-205)
  (env.getMessage message.id).bind fun msg =>
  let thread_id := msg.threadId
  let payload := msg.payload
  let headers := payload.headers
  -- get thread context (lines 208-209)
  (env.getThread thread_id).bind fun messages_in_thread =>
  -- sort messages chronologically and take the last (lines 211-221)
  ((sortThread messages_in_thread).getLast?).bind fun last_message =>
  (headerFirst last_message.payload.headers "From").bind fun last_from =>
  -- check if user already responded (lines 225-232)
  if ¬skip_filters ∧ strContains last_from email_address then
    some (.userRespond message.id thread_id)
  else
    -- decide whether the message should be processed (lines 235-247)
    (headerFirst headers "From").bind fun from_header =>
    let is_from_user := strContains from_header email_address
    let is_latest_in_thread := message.id = last_message.id
    let should_process :=
      skip_filters ∨ (¬is_from_user ∧ is_latest_in_thread)
    if ¬should_process then none
    else
      -- choose message and payload to process (lines 250-252)
      let process_payload :=
        if skip_filters then last_message.payload else payload
      let process_headers := process_payload.headers
      -- extract metadata (lines 255-265)
      (headerFirst process_headers "Subject").bind fun subject =>
      let from_email := (headerFirst process_headers "From").getD ""
      let to_email := (headerFirst process_headers "To").getD ""
      let reply_to := (headerFirst process_headers "Reply-To").getD ""
      let from_email := if reply_to ≠ "" then reply_to else from_email
      (headerFirst process_headers "Date").bind fun send_time =>
      (env.parseTime send_time).bind fun parsed_time =>
      -- extract body and yield (lines 268-279)
      let body := extract_message_part process_payload
      some (.record {
        from_email := pyStrip from_email
        to_email := pyStrip to_email
        subject := subject
        page_content := body
        id := if skip_filters then last_message.id else message.id
        thread_id :=
          if skip_filters then last_message.threadId
          else message.threadId
        send_time := parsed_time
      })

/-- Model of the `fetch_group_emails` generator over the listed message
stubs: the sequence of its yields is the concatenation of each message's
yields, one optional item per message. -/
def fetch_group_emails (env : GmailEnv) (email_address : String)
    (skip_filters : Bool) (messages : List MsgStub) : List FetchItem :=
  messages.filterMap (processMessage env email_address skip_filters)

/-! ## Calendar availability (`get_calendar_events`, lines 353-450) -/

/-- Start or end of one calendar event on a date: a timed event carries
minutes from midnight of that date; an all-day event carries only a date. -/
inductive EventTime where
  | timed (start stop : Int)
  | allDay
deriving DecidableEq

/-- One calendar event returned by `events().list` for a date. -/
structure CalEvent where
  time : EventTime
  summary : String
deriving DecidableEq

/-- Working-hours start, `datetime(year, month, day, 9, 0)` of line 424, in
minutes from midnight. -/
def work_start : Int := 9 * 60

/-- Working-hours end, `datetime(year, month, day, 17, 0)` of line 425, in
minutes from midnight. -/
def work_end : Int := 17 * 60

/-- The gap walk of lines 428-437: scan the sorted busy slots, emitting the
gap before each busy slot that starts after the current frontier, advancing
the frontier to the later of itself and the slot's end, and emitting a
final gap up to `work_end`. -/
def find_gaps : List (Int × Int) → Int → List (Int × Int)
  | [], current =>
    if current < work_end then [(current, work_end)] else []
  | (start, stop) :: rest, current =>
    if current < start then
      (current, start) :: find_gaps rest (max current stop)
    else
      find_gaps rest (max current stop)

/-- Available slots computed for one date (lines 421-437): sort busy slots
by start time (`busy_slots.sort(key=lambda x: x [0])`, a stable sort) and
walk the gaps from `work_start`. -/
def available_slots (busy_slots : List (Int × Int)) : List (Int × Int) :=
  find_gaps (List.insertionSort (fun a b => a.1 ≤ b.1) busy_slots) work_start

/-- The availability reported for one date. -/
inductive Availability where
  | availableAllDay
  | noneAllDay
  | slots (l : List (Int × Int))
deriving DecidableEq

/-- Per-date availability logic of `get_calendar_events` (lines 392-448):
no events reports the whole day available; any all-day event reports no
availability; otherwise the timed busy slots are collected in event order
and the gap walk runs (an empty gap list is the source's
`None during working hours` case). -/
def dayAvailability (events : List CalEvent) : Availability :=
  if events.isEmpty then .availableAllDay
  else
    let busy_slots := events.map (fun ev => ev.time)
    if busy_slots.any (fun t => match t with | .allDay => true | _ => false) then
      .noneAllDay
    else
      .slots (available_slots (busy_slots.filterMap
        (fun t => match t with | .timed s e => some (s, e) | .allDay => none)))

/-- Model of `get_calendar_events` over a list of dates: the provider
`fetchEvents` returns the events of each date, and each date is reported
with its availability. -/
def get_calendar_events (fetchEvents : String → List CalEvent)
    (dates : List String) : List (String × Availability) :=
  dates.map (fun d => (d, dayAvailability (fetchEvents d)))

/-- Interpretation of a reported availability at a time of day, in minutes
from midnight: an all-day-free report covers every time, a blocked report
covers none, and a slot report covers the times inside some slot. -/
def isAvailableAt : Availability → Int → Bool
  | .availableAllDay, _ => true
  | .noneAllDay, _ => false
  | .slots l, t => l.any (fun p => p.1 ≤ t && t < p.2)

/-! ## Helper lemmas -/

/-- A list whose prefix is `pat` contains `pat`. -/
lemma listContains_of_isPrefixOf {pat hay : List Char}
    (h : pat.isPrefixOf hay = true) : listContains pat hay = true := by
  cases hay with
  | nil =>
    cases pat with
    | nil => rfl
    | cons c cs => simp [List.isPrefixOf] at h
  | cons c rest => simp [listContains, h]

/-- Containment is preserved by prepending a character. -/
lemma listContains_cons {pat hay : List Char} (c : Char)
    (h : listContains pat hay = true) : listContains pat (c :: hay) = true := by
  simp [listContains, h]

/-- Containment is preserved by prepending a list. -/
lemma listContains_append_left {pat hay : List Char} (x : List Char)
    (h : listContains pat hay = true) : listContains pat (x ++ hay) = true := by
  induction x with
  | nil => simpa using h
  | cons c cs ih => simpa using listContains_cons c ih

/-- A list starting with `pat` contains `pat`. -/
lemma listContains_self_append (pat y : List Char) :
    listContains pat (pat ++ y) = true :=
  listContains_of_isPrefixOf
    (List.isPrefixOf_iff_prefix.mpr (List.prefix_append pat y))

/-- A string of the shape `a ++ (s ++ b)` contains `s` as a substring. -/
lemma strContains_append_middle (a s b : String) :
    strContains (a ++ (s ++ b)) s = true := by
  show listContains s.data (a ++ (s ++ b)).data = true
  rw [String.data_append, String.data_append]
  exact listContains_append_left a.data (listContains_self_append s.data b.data)

/-- In a pairwise-ordered list, every element is the last one or relates to
the last one. -/
lemma pairwise_rel_getLast {α : Type} {r : α → α → Prop} {l : List α} {z : α}
    (hp : List.Pairwise r l) (hz : l.getLast? = some z) :
    ∀ x ∈ l, x = z ∨ r x z := by
  induction l with
  | nil => simp at hz
  | cons a t ih =>
    rcases List.pairwise_cons.mp hp with ⟨ha, ht⟩
    cases t with
    | nil =>
      simp at hz
      intro x hx
      simp at hx
      subst hx hz
      exact Or.inl rfl
    | cons b t2 =>
      rw [List.getLast?_cons_cons] at hz
      intro x hx
      rcases List.mem_cons.mp hx with rfl | hx2
      · exact Or.inr (ha z (List.mem_of_mem_getLast? hz))
      · exact ih ht hz x hx2

/-! ## Claim C1: credential source priority -/

/-- C1: `get_credentials` resolves the token data from the first available
of the three sources, in the priority order: the explicitly passed
`gmail_token` parameter, then the `GMAIL_TOKEN` environment variable, then
the local `.secrets/token.json` file; moreover a source whose content
cannot be parsed as JSON is treated exactly as an absent source, and the
next source is tried. -/
theorem get_credentials_priority (parse : String → Option Json)
    (gmail_token env_token file_content : Option String) :
    resolveTokenData parse gmail_token env_token file_content =
      firstAvailableSource parse gmail_token env_token file_content ∧
    (∀ s, gmail_token = some s → parse s = none →
      resolveTokenData parse gmail_token env_token file_content =
        resolveTokenData parse none env_token file_content) ∧
    (∀ s, env_token = some s → parse s = none →
      resolveTokenData parse gmail_token env_token file_content =
        resolveTokenData parse gmail_token none file_content) ∧
    (∀ s, file_content = some s → parse s = none →
      resolveTokenData parse gmail_token env_token file_content =
        resolveTokenData parse gmail_token env_token none) := by
  refine ⟨?_, ?_, ?_, ?_⟩
  · cases gmail_token <;> cases env_token <;> cases file_content <;>
      simp only [resolveTokenData, firstAvailableSource, sourceAvailable,
        List.findSome?, Option.bind_none, Option.bind_some, id] <;>
      (repeat' split) <;> simp_all
  · rintro s rfl hp
    simp only [resolveTokenData, loadsAttempt, hp]
    (repeat' split) <;> simp_all
  · rintro s rfl hp
    simp only [resolveTokenData, loadsAttempt, hp]
    (repeat' split) <;> simp_all
  · rintro s rfl hp
    simp only [resolveTokenData, loadsAttempt, hp]

/-- C1 witness: with a parser failing on `bad` and succeeding on `tok`, the
parameter source is skipped when unparsable and the priority order is the
spec-side first-available order. -/
theorem get_credentials_priority_witness :
    resolveTokenData (fun s => if s = "tok" then some (.obj []) else none)
        (some "bad") (some "tok") none =
      firstAvailableSource (fun s => if s = "tok" then some (.obj []) else none)
        (some "bad") (some "tok") none ∧
    resolveTokenData (fun s => if s = "tok" then some (.obj []) else none)
        (some "bad") (some "tok") none =
      resolveTokenData (fun s => if s = "tok" then some (.obj []) else none)
        none (some "tok") none := by
  refine ⟨(get_credentials_priority _ (some "bad") (some "tok") none).1, ?_⟩
  exact (get_credentials_priority _ (some "bad") (some "tok") none).2.1 "bad"
    rfl (by simp)

/-! ## Claim C6: error when no credential source is available -/

/-- C6: when the `gmail_token` parameter is absent or unparsable, the
`GMAIL_TOKEN` environment variable is absent or unparsable, and the local
`.secrets/token.json` file is unreadable, `get_credentials` raises a
`ValueError` whose message names all three accepted credential sources, and
never returns a `Credentials` object. -/
theorem get_credentials_error_when_no_source (parse : String → Option Json)
    (gmail_token env_token file_content : Option String)
    (ht : ∀ s, gmail_token = some s → parse s = none)
    (he : ∀ s, env_token = some s → parse s = none)
    (hf : file_content = none) :
    get_credentials parse gmail_token env_token file_content =
      .error credentialsErrorMessage ∧
    strContains credentialsErrorMessage "gmail_token parameter" = true ∧
    strContains credentialsErrorMessage "GMAIL_TOKEN environment variable" = true ∧
    strContains credentialsErrorMessage ".secrets/token.json file" = true ∧
    ∀ c, get_credentials parse gmail_token env_token file_content ≠ .ok c := by
  have hres : resolveTokenData parse gmail_token env_token file_content = none := by
    subst hf
    cases gmail_token with
    | none =>
      cases env_token with
      | none => rfl
      | some s => simp [resolveTokenData, loadsAttempt, he s rfl]
    | some s =>
      cases env_token with
      | none => simp [resolveTokenData, loadsAttempt, ht s rfl]
      | some s2 =>
        simp [resolveTokenData, loadsAttempt, ht s rfl, he s2 rfl]
  refine ⟨?_, by decide, by decide, by decide, ?_⟩
  · simp [get_credentials, hres]
  · intro c
    simp [get_credentials, hres]

/-- C6 witness: a parser that fails on everything, an unparsable parameter
and environment variable, and no token file produce the error. -/
theorem get_credentials_error_witness :
    get_credentials (fun _ => none) (some "x") (some "y") none =
      .error credentialsErrorMessage :=
  (get_credentials_error_when_no_source (fun _ => none) (some "x") (some "y")
    none (fun _ _ => rfl) (fun _ _ => rfl) rfl).1

/-! ## Claim C5: HTML-detection heuristic of `format_gmail_markdown` -/

/-- C5 counterexample: the body `"hello <html> world"` contains an html
tag, yet `format_gmail_markdown` does not convert it: the output keeps the
raw body even under a converter that would replace it, because the
detection only accepts a doctype or html tag at the start of the stripped
body. -/
theorem format_markdown_marker_not_converted :
    containsHtmlMarker "hello <html> world" = true ∧
    isHtmlBody "hello <html> world" = false ∧
    format_gmail_markdown (fun _ => "CONVERTED") "s" "a" "b"
        "hello <html> world" none =
      gmailMarkdownTemplate "s" "a" "b" "" "hello <html> world" := by
  refine ⟨by decide, by decide, by decide⟩

/-- C5 (amended): `format_gmail_markdown` applies HTML-to-text conversion
to the email body if and only if the body is nonempty and either its
stripped form starts with a doctype or html tag, or it contains a body tag
anywhere; a body satisfying none of these (in particular any raw-text body
containing no doctype, html or body tag) is passed through without
conversion. -/
theorem format_markdown_html_detection (htmlToText : String → String)
    (subject author toAddr email_thread : String) (email_id : Option String) :
    (isHtmlBody email_thread = true ↔
      (email_thread ≠ "" ∧
        (pyStartsWith (pyStrip email_thread) "<!DOCTYPE" = true ∨
         pyStartsWith (pyStrip email_thread) "<html" = true ∨
         strContains email_thread "<body" = true))) ∧
    (isHtmlBody email_thread = true →
      format_gmail_markdown htmlToText subject author toAddr email_thread email_id =
        gmailMarkdownTemplate subject author toAddr (idSection email_id)
          (htmlToText email_thread)) ∧
    (isHtmlBody email_thread = false →
      format_gmail_markdown htmlToText subject author toAddr email_thread email_id =
        gmailMarkdownTemplate subject author toAddr (idSection email_id)
          email_thread) := by
  refine ⟨?_, ?_, ?_⟩
  · simp only [isHtmlBody, Bool.and_eq_true, Bool.or_eq_true, bne_iff_ne]
    tauto
  · intro h
    simp [format_gmail_markdown, h]
  · intro h
    simp [format_gmail_markdown, h]

/-- C5 witness: a raw-text body with no HTML markers is passed through
unchanged even under a converter that would replace it. -/
theorem format_markdown_html_detection_witness :
    format_gmail_markdown (fun _ => "CONVERTED") "s" "a" "b"
        "just plain text" (some "id7") =
      gmailMarkdownTemplate "s" "a" "b" (idSection (some "id7"))
        "just plain text" :=
  (format_markdown_html_detection (fun _ => "CONVERTED") "s" "a" "b"
    "just plain text" (some "id7")).2.2 (by decide)

/-! ## Claim C9: the reply-subject transformation is idempotent -/

/-- The reply subject always starts with the `Re:` prefix. -/
lemma replySubject_startsWith (subject : String) :
    pyStartsWith (replySubject subject) "Re:" = true := by
  unfold replySubject
  split
  · assumption
  · show ("Re:".data.isPrefixOf ("Re: " ++ subject).data) = true
    rw [String.data_append]
    exact List.isPrefixOf_iff_prefix.mpr
      (List.IsPrefix.trans (by decide) (List.prefix_append "Re: ".data subject.data))

/-- A subject that already starts with `Re:` is left unchanged. -/
lemma replySubject_of_startsWith {s : String}
    (h : pyStartsWith s "Re:" = true) : replySubject s = s := by
  simp [replySubject, h]

/-- C9: for every subject, the computed reply subject starts with `Re:`; a
subject already starting with `Re:` is left unchanged, so the
transformation is idempotent and never stacks a second `Re: ` prefix. -/
theorem reply_subject_idempotent (subject : String) :
    pyStartsWith (replySubject subject) "Re:" = true ∧
    (pyStartsWith subject "Re:" = true → replySubject subject = subject) ∧
    replySubject (replySubject subject) = replySubject subject :=
  ⟨replySubject_startsWith subject,
   fun h => replySubject_of_startsWith h,
   replySubject_of_startsWith (replySubject_startsWith subject)⟩

/-- C9 witness: the transformation at the concrete subject `"Hello"`
produces a `Re:`-prefixed subject and is idempotent there. -/
theorem reply_subject_idempotent_witness :
    pyStartsWith (replySubject "Hello") "Re:" = true ∧
    replySubject (replySubject "Hello") = replySubject "Hello" ∧
    replySubject "Re: Hello" = "Re: Hello" := by
  refine ⟨(reply_subject_idempotent "Hello").1,
    (reply_subject_idempotent "Hello").2.2,
    (reply_subject_idempotent "Re: Hello").2.1 (by decide)⟩

/-! ## Claim C8: `send_email` error handling and reply construction -/

/-- C8: if the original message referenced by `email_id` cannot be
retrieved, `send_email` raises a `ValueError` naming that message id and
sends nothing; otherwise (when the original message and its Subject and
From headers exist) it submits a reply addressed to the original From
sender, threaded into the original thread id, with the original subject
prefixed by `Re: ` when not already present, and returns `True`. -/
theorem send_email_spec (getMessage : String → Option GmailMessage)
    (email_id response_text email_address : String)
    (addn_recipients : Option (List String)) :
    (getMessage email_id = none →
      ∃ msg, send_email getMessage email_id response_text email_address
          addn_recipients = .error msg ∧
        strContains msg email_id = true ∧
        ∀ r, send_email getMessage email_id response_text email_address
          addn_recipients ≠ .ok r) ∧
    (∀ message subject original_from,
      getMessage email_id = some message →
      headerFirst message.payload.headers "Subject" = some subject →
      headerFirst message.payload.headers "From" = some original_from →
      send_email getMessage email_id response_text email_address
          addn_recipients = .ok {
        toAddr := original_from
        fromAddr := email_address
        subject := replySubject subject
        cc :=
          match addn_recipients with
          | some l => if l.isEmpty then none else some (String.intercalate ", " l)
          | none => none
        bodyText := response_text
        threadId := message.threadId } ∧
      pyStartsWith (replySubject subject) "Re:" = true ∧
      (pyStartsWith subject "Re:" = true → replySubject subject = subject)) := by
  constructor
  · intro h
    refine ⟨"Could not retrieve original message " ++ email_id ++ ": " ++
      "message lookup failed", ?_, ?_, ?_⟩
    · simp [send_email, h]
    · rw [String.append_assoc, String.append_assoc]
      exact strContains_append_middle "Could not retrieve original message "
        email_id (": " ++ "message lookup failed")
    · intro r
      simp [send_email, h]
  · intro message subject original_from hm hs hf
    refine ⟨?_, replySubject_startsWith subject,
      fun h => replySubject_of_startsWith h⟩
    simp [send_email, hm, hs, hf]

/-- C8 witness: a concrete lookup failure produces the id-naming error, and
a concrete original message produces the threaded `Re:` reply. -/
theorem send_email_spec_witness :
    (∃ msg, send_email (fun _ => none) "m9" "txt" "me@ex.com" none =
        .error msg ∧ strContains msg "m9" = true ∧
      ∀ r, send_email (fun _ => none) "m9" "txt" "me@ex.com" none ≠ .ok r) ∧
    send_email
        (fun i => if i = "a1" then
          some ⟨"a1", "t1", some 1,
            .mk [("From", "bob@ex.com"), ("Subject", "Hi")] (some "hello") []⟩
          else none)
        "a1" "thanks" "alice@ex.com" none = .ok {
      toAddr := "bob@ex.com"
      fromAddr := "alice@ex.com"
      subject := "Re: Hi"
      cc := none
      bodyText := "thanks"
      threadId := "t1" } := by
  constructor
  · exact (send_email_spec (fun _ => none) "m9" "txt" "me@ex.com" none).1 rfl
  · have h := (send_email_spec
      (fun i => if i = "a1" then
        some ⟨"a1", "t1", some 1,
          .mk [("From", "bob@ex.com"), ("Subject", "Hi")] (some "hello") []⟩
        else none)
      "a1" "thanks" "alice@ex.com" none).2
      ⟨"a1", "t1", some 1,
        .mk [("From", "bob@ex.com"), ("Subject", "Hi")] (some "hello") []⟩
      "Hi" "bob@ex.com" (by rfl) (by rfl) (by rfl)
    simpa [replySubject] using h.1

/-! ## Claims C2 and C4: calendar availability -/

instance : IsTotal (Int × Int) (fun a b => a.1 ≤ b.1) :=
  ⟨fun a b => le_total a.1 b.1⟩

instance : IsTrans (Int × Int) (fun a b => a.1 ≤ b.1) :=
  ⟨fun _ _ _ h1 h2 => le_trans h1 h2⟩

/-- Every gap starts at or after the current frontier and is nonempty. -/
lemma find_gaps_start_ge :
    ∀ (l : List (Int × Int)) (current : Int), ∀ p ∈ find_gaps l current,
      current ≤ p.1 ∧ p.1 < p.2 := by
  intro l
  induction l with
  | nil =>
    intro current p hp
    unfold find_gaps at hp
    split at hp
    · rcases List.mem_singleton.mp hp with rfl
      exact ⟨le_refl _, by assumption⟩
    · simp at hp
  | cons q rest ih =>
    intro current p hp
    obtain ⟨s, e⟩ := q
    unfold find_gaps at hp
    split at hp
    · rcases List.mem_cons.mp hp with rfl | hp2
      · exact ⟨le_refl _, by assumption⟩
      · rcases ih (max current e) p hp2 with ⟨h1, h2⟩
        exact ⟨le_trans (le_max_left _ _) h1, h2⟩
    · rcases ih (max current e) p hp with ⟨h1, h2⟩
      exact ⟨le_trans (le_max_left _ _) h1, h2⟩

/-- When every busy slot starts no later than `work_end`, every gap ends no
later than `work_end`. -/
lemma find_gaps_end_le :
    ∀ (l : List (Int × Int)) (current : Int),
      (∀ q ∈ l, q.1 ≤ work_end) →
      ∀ p ∈ find_gaps l current, p.2 ≤ work_end := by
  intro l
  induction l with
  | nil =>
    intro current _ p hp
    unfold find_gaps at hp
    split at hp
    · rcases List.mem_singleton.mp hp with rfl
      exact le_refl _
    · simp at hp
  | cons q rest ih =>
    intro current hle p hp
    obtain ⟨s, e⟩ := q
    unfold find_gaps at hp
    split at hp
    · rcases List.mem_cons.mp hp with rfl | hp2
      · exact hle (s, e) (List.mem_cons_self _ _)
      · exact ih (max current e) (fun q hq => hle q (List.mem_cons_of_mem _ hq))
          p hp2
    · exact ih (max current e) (fun q hq => hle q (List.mem_cons_of_mem _ hq))
        p hp

/-- When the busy slots are sorted by start and well-formed, the gaps are
pairwise ordered: each gap ends at or before every later gap starts. -/
lemma find_gaps_pairwise :
    ∀ (l : List (Int × Int)) (current : Int),
      l.Pairwise (fun a b => a.1 ≤ b.1) →
      (∀ q ∈ l, q.1 ≤ q.2) →
      (find_gaps l current).Pairwise (fun a b => a.2 ≤ b.1) := by
  intro l
  induction l with
  | nil =>
    intro current _ _
    unfold find_gaps
    split
    · exact List.pairwise_singleton _ _
    · exact List.Pairwise.nil
  | cons q rest ih =>
    intro current hs hwf
    obtain ⟨s, e⟩ := q
    rcases List.pairwise_cons.mp hs with ⟨_, hrest⟩
    have hse : s ≤ e := hwf (s, e) (List.mem_cons_self _ _)
    have hwf' : ∀ q ∈ rest, q.1 ≤ q.2 :=
      fun q hq => hwf q (List.mem_cons_of_mem _ hq)
    unfold find_gaps
    split
    · refine List.pairwise_cons.mpr ⟨?_, ih (max current e) hrest hwf'⟩
      intro p hp
      have h1 := (find_gaps_start_ge rest (max current e) p hp).1
      exact le_trans hse (le_trans (le_max_right _ _) h1)
    · exact ih (max current e) hrest hwf'

/-- The timed busy slots collected from the events of one date, in event
order (the `busy_slots.append((start_dt, end_dt))` loop of lines 400-415
restricted to its timed branch). -/
def timedBusySlots (events : List CalEvent) : List (Int × Int) :=
  (events.map (fun ev => ev.time)).filterMap
    (fun t => match t with | .timed s e => some (s, e) | .allDay => none)

/-- With no all-day event and at least one event, the reported availability
is the computed slot list. -/
lemma dayAvailability_eq_slots (events : List CalEvent)
    (hne : events ≠ [])
    (htimed : ∀ ev ∈ events, ev.time ≠ .allDay) :
    dayAvailability events = .slots (available_slots (timedBusySlots events)) := by
  have hne' : events.isEmpty = false := by
    cases events with
    | nil => exact absurd rfl hne
    | cons a t => rfl
  have hany : (events.map (fun ev => ev.time)).any
      (fun t => match t with | .allDay => true | _ => false) = false := by
    rw [List.any_eq_false]
    intro t ht
    rcases List.mem_map.mp ht with ⟨ev, hev, rfl⟩
    cases h : ev.time with
    | timed s e => simp
    | allDay => exact absurd h (htimed ev hev)
  simp [dayAvailability, hne', hany, timedBusySlots]

/-- C2 (amended): for every date with at least one timed event and no
all-day event, provided each timed event is well-formed (start at most end)
and starts no later than 5:00 PM, the available slots computed by
`get_calendar_events` are pairwise ordered (each slot ends at or before
every later slot begins, so they are strictly ascending and
non-overlapping) and each slot is contained in the 9:00 AM to 5:00 PM
working-hours window.  The 5:00 PM bound on event starts is necessary: see
the counterexample, where an event past 5:00 PM makes the code emit an
available slot reaching past the end of the window. -/
theorem calendar_slots_sound (events : List CalEvent)
    (hne : events ≠ [])
    (htimed : ∀ ev ∈ events, ev.time ≠ .allDay)
    (hwf : ∀ p ∈ timedBusySlots events, p.1 ≤ p.2)
    (hbound : ∀ p ∈ timedBusySlots events, p.1 ≤ work_end) :
    ∃ l, dayAvailability events = .slots l ∧
      l.Pairwise (fun a b => a.2 ≤ b.1) ∧
      ∀ p ∈ l, work_start ≤ p.1 ∧ p.1 < p.2 ∧ p.2 ≤ work_end := by
  refine ⟨available_slots (timedBusySlots events),
    dayAvailability_eq_slots events hne htimed, ?_, ?_⟩
  · apply find_gaps_pairwise
    · exact List.sorted_insertionSort (fun a b => a.1 ≤ b.1) (timedBusySlots events)
    · intro q hq
      exact hwf q ((List.perm_insertionSort (fun a b => a.1 ≤ b.1)
        (timedBusySlots events)).mem_iff.mp hq)
  · intro p hp
    rcases find_gaps_start_ge _ work_start p hp with ⟨h1, h2⟩
    refine ⟨h1, h2, ?_⟩
    apply find_gaps_end_le _ work_start _ p hp
    intro q hq
    exact hbound q ((List.perm_insertionSort (fun a b => a.1 ≤ b.1)
      (timedBusySlots events)).mem_iff.mp hq)

/-- C2 counterexample: a single well-formed timed event from 6:00 PM to
7:00 PM (minutes 1080 to 1140) makes the code report the slot 9:00 AM to
6:00 PM as available, which ends after the 5:00 PM end of the
working-hours window (minute 1020): the claim's containment in the window
is false as stated. -/
theorem calendar_slots_window_counterexample :
    dayAvailability [⟨.timed 1080 1140, "Dinner"⟩] = .slots [(540, 1080)] ∧
    ¬((1080 : Int) ≤ work_end) := by
  refine ⟨by decide, by decide⟩

/-- C2 witness: a single 10:00-11:00 AM meeting yields ordered,
non-overlapping slots inside the 9:00-17:00 window. -/
theorem calendar_slots_sound_witness :
    ∃ l, dayAvailability [⟨.timed 600 660, "Standup"⟩] = .slots l ∧
      l.Pairwise (fun a b => a.2 ≤ b.1) ∧
      ∀ p ∈ l, work_start ≤ p.1 ∧ p.1 < p.2 ∧ p.2 ≤ work_end :=
  calendar_slots_sound [⟨.timed 600 660, "Standup"⟩]
    (by simp)
    (by decide)
    (by decide)
    (by decide)

/-- C4: for every date on which the provider returns no events,
`get_calendar_events` reports that date as available all day, and in
particular every time in the full 9:00 AM to 5:00 PM working-hours window
is reported available for that date. -/
theorem calendar_no_events_full_window (fetchEvents : String → List CalEvent)
    (dates : List String) (d : String)
    (hd : d ∈ dates) (hempty : fetchEvents d = []) :
    (d, Availability.availableAllDay) ∈ get_calendar_events fetchEvents dates ∧
    ∀ t : Int, work_start ≤ t → t < work_end →
      isAvailableAt (dayAvailability (fetchEvents d)) t = true := by
  constructor
  · apply List.mem_map.mpr
    exact ⟨d, hd, by simp [hempty, dayAvailability]⟩
  · intro t _ _
    simp [hempty, dayAvailability, isAvailableAt]

/-- C4 witness: a provider with no events on the asked date reports it
available all day, and 12:00 noon inside the window is available. -/
theorem calendar_no_events_full_window_witness :
    ("01-01-2024", Availability.availableAllDay) ∈
      get_calendar_events (fun _ => []) ["01-01-2024"] ∧
    isAvailableAt (dayAvailability ((fun (_ : String) => ([] : List CalEvent))
      "01-01-2024")) 720 = true := by
  have h := calendar_no_events_full_window (fun _ => []) ["01-01-2024"]
    "01-01-2024" (by simp) rfl
  exact ⟨h.1, h.2 720 (by decide) (by decide)⟩

/-! ## Claims C3, C7 and C10: fetch filtering and error containment -/

instance : IsTotal GmailMessage
    (fun a b => a.internalDate.getD 0 ≤ b.internalDate.getD 0) :=
  ⟨fun a b => le_total (a.internalDate.getD 0) (b.internalDate.getD 0)⟩

instance : IsTrans GmailMessage
    (fun a b => a.internalDate.getD 0 ≤ b.internalDate.getD 0) :=
  ⟨fun _ _ _ h1 h2 => le_trans h1 h2⟩

/-- When every thread message carries an `internalDate`, the last message
of the sorted thread is chronologically last: its `internalDate` is
maximal among the thread's messages. -/
lemma sortThread_getLast_max (messages_in_thread : List GmailMessage)
    (last_message : GmailMessage)
    (hall : messages_in_thread.all (fun m => m.internalDate.isSome) = true)
    (hlast : (sortThread messages_in_thread).getLast? = some last_message) :
    ∀ m ∈ messages_in_thread,
      m.internalDate.getD 0 ≤ last_message.internalDate.getD 0 := by
  unfold sortThread at hlast
  rw [if_pos hall] at hlast
  have hs := List.sorted_insertionSort
    (fun a b : GmailMessage => a.internalDate.getD 0 ≤ b.internalDate.getD 0)
    messages_in_thread
  have hperm := List.perm_insertionSort
    (fun a b : GmailMessage => a.internalDate.getD 0 ≤ b.internalDate.getD 0)
    messages_in_thread
  intro m hm
  rcases pairwise_rel_getLast hs hlast m (hperm.mem_iff.mpr hm) with rfl | h
  · exact le_refl _
  · exact h

/-- C3: with `skip_filters = False`, a listed message whose thread's
chronologically last message has the target address inside its From header
yields only the already-responded marker, never a full email record; with
`skip_filters = True` this filter is not applied, and the already-responded
marker is never produced.  When all thread messages carry `internalDate`,
the sorted-last message is indeed chronologically last. -/
theorem fetch_skip_already_responded (env : GmailEnv) (email_address : String)
    (message : MsgStub) (msg : GmailMessage)
    (messages_in_thread : List GmailMessage) (last_message : GmailMessage)
    (last_from : String)
    (hm : env.getMessage message.id = some msg)
    (ht : env.getThread msg.threadId = some messages_in_thread)
    (hlast : (sortThread messages_in_thread).getLast? = some last_message)
    (hfrom : headerFirst last_message.payload.headers "From" = some last_from)
    (hcontains : strContains last_from email_address = true) :
    processMessage env email_address false message =
      some (.userRespond message.id msg.threadId) ∧
    (∀ r, processMessage env email_address false message ≠
      some (.record r)) ∧
    (∀ item, processMessage env email_address true message = some item →
      ∃ r, item = .record r) ∧
    (messages_in_thread.all (fun m => m.internalDate.isSome) = true →
      ∀ m ∈ messages_in_thread,
        m.internalDate.getD 0 ≤ last_message.internalDate.getD 0) := by
  have hproc : processMessage env email_address false message =
      some (.userRespond message.id msg.threadId) := by
    simp [processMessage, hm, ht, hlast, hfrom, hcontains]
  refine ⟨hproc, ?_, ?_, fun hall => sortThread_getLast_max _ _ hall hlast⟩
  · intro r
    rw [hproc]
    simp
  · intro item hitem
    simp only [processMessage, hm, ht, hlast, hfrom, Option.some_bind] at hitem
    simp only [not_true, false_and, if_false, Bool.true_eq_false] at hitem
    rcases Option.bind_eq_some.mp hitem with ⟨from_header, _, hitem⟩
    simp only [if_neg, not_not, true_or, not_true] at hitem
    rcases Option.bind_eq_some.mp hitem with ⟨subject, _, hitem⟩
    rcases Option.bind_eq_some.mp hitem with ⟨send_time, _, hitem⟩
    rcases Option.bind_eq_some.mp hitem with ⟨parsed_time, _, hitem⟩
    exact ⟨_, (Option.some.inj hitem).symm⟩

/-- C10: with `skip_filters = False`, every yielded full email record comes
from a message that equals the last message of its sorted thread (the
chronologically last one when all thread messages carry `internalDate`)
and whose From header does not contain the target address. -/
theorem fetch_record_invariant (env : GmailEnv) (email_address : String)
    (message : MsgStub) (r : EmailRecord)
    (h : processMessage env email_address false message = some (.record r)) :
    ∃ msg messages_in_thread last_message from_header,
      env.getMessage message.id = some msg ∧
      env.getThread msg.threadId = some messages_in_thread ∧
      (sortThread messages_in_thread).getLast? = some last_message ∧
      message.id = last_message.id ∧
      headerFirst msg.payload.headers "From" = some from_header ∧
      strContains from_header email_address = false ∧
      (messages_in_thread.all (fun m => m.internalDate.isSome) = true →
        ∀ m ∈ messages_in_thread,
          m.internalDate.getD 0 ≤ last_message.internalDate.getD 0) := by
  unfold processMessage at h
  rcases Option.bind_eq_some.mp h with ⟨msg, hm, h⟩
  rcases Option.bind_eq_some.mp h with ⟨messages_in_thread, ht, h⟩
  rcases Option.bind_eq_some.mp h with ⟨last_message, hlast, h⟩
  rcases Option.bind_eq_some.mp h with ⟨last_from, hfrom, h⟩
  split at h
  · exact absurd (Option.some.inj h) (by simp)
  · rcases Option.bind_eq_some.mp h with ⟨from_header, hfh, h⟩
    dsimp only at h
    split at h
    · simp at h
    · next hsp =>
      rw [not_not] at hsp
      rcases hsp with hskip | ⟨hnotuser, hlatest⟩
      · simp at hskip
      · refine ⟨msg, messages_in_thread, last_message, from_header,
          hm, ht, hlast, hlatest, hfh, ?_,
          fun hall => sortThread_getLast_max _ _ hall hlast⟩
        simpa using hnotuser

/-- C7: a failure while processing one listed message (any exception
during its get/thread/header/date handling, modelled by the per-message
step yielding nothing) skips only that message: the yields of the whole
batch are exactly the yields of the messages before it followed by the
yields of the messages after it. -/
theorem fetch_failure_isolated (env : GmailEnv) (email_address : String)
    (skip_filters : Bool) (before after : List MsgStub) (bad : MsgStub)
    (h : processMessage env email_address skip_filters bad = none) :
    fetch_group_emails env email_address skip_filters
        (before ++ bad :: after) =
      fetch_group_emails env email_address skip_filters before ++
      fetch_group_emails env email_address skip_filters after := by
  simp [fetch_group_emails, List.filterMap_append, List.filterMap_cons, h]

/-! Shared concrete sample data for the fetch witnesses. -/

/-- Sample payload of the incoming message from Bob. -/
def samplePayloadBob : Payload :=
  .mk [("From", "bob@ex.com"), ("Subject", "Hi"), ("To", "alice@ex.com"),
       ("Date", "Mon, 1 Jan 2024 09:00:00 +0000")] (some "hello") []

/-- Sample incoming message from Bob. -/
def sampleMsgBob : GmailMessage := ⟨"a1", "t1", some 1, samplePayloadBob⟩

/-- Sample payload of Alice's later reply in the same thread. -/
def samplePayloadAlice : Payload :=
  .mk [("From", "alice@ex.com"), ("Subject", "Re: Hi"),
       ("Date", "Mon, 1 Jan 2024 10:00:00 +0000")] (some "re") []

/-- Sample reply message from Alice, chronologically last in the thread. -/
def sampleMsgAlice : GmailMessage := ⟨"b2", "t1", some 2, samplePayloadAlice⟩

/-- Sample environment in which Alice already responded in the thread (the
thread list arrives unsorted). -/
def sampleEnvResponded : GmailEnv :=
  ⟨fun i => if i = "a1" then some sampleMsgBob else none,
   fun t => if t = "t1" then some [sampleMsgAlice, sampleMsgBob] else none,
   fun _ => some "2024-01-01T09:00:00+00:00"⟩

/-- Sample environment in which Bob's message is the only one in its
thread. -/
def sampleEnvFresh : GmailEnv :=
  ⟨fun i => if i = "a1" then some sampleMsgBob else none,
   fun t => if t = "t1" then some [sampleMsgBob] else none,
   fun _ => some "2024-01-01T09:00:00+00:00"⟩

/-- C3 witness: in the responded sample environment, processing Bob's
message with filters on yields the already-responded marker. -/
theorem fetch_skip_already_responded_witness :
    processMessage sampleEnvResponded "alice@ex.com" false ⟨"a1", "t1"⟩ =
      some (.userRespond "a1" "t1") :=
  (fetch_skip_already_responded sampleEnvResponded "alice@ex.com"
    ⟨"a1", "t1"⟩ sampleMsgBob [sampleMsgAlice, sampleMsgBob] sampleMsgAlice
    "alice@ex.com" rfl rfl (by rfl) rfl (by decide)).1

/-- C10 witness: in the fresh sample environment a full record is yielded,
so the invariant instantiates there. -/
theorem fetch_record_invariant_witness :
    ∃ msg messages_in_thread last_message from_header,
      sampleEnvFresh.getMessage "a1" = some msg ∧
      sampleEnvFresh.getThread msg.threadId = some messages_in_thread ∧
      (sortThread messages_in_thread).getLast? = some last_message ∧
      "a1" = last_message.id ∧
      headerFirst msg.payload.headers "From" = some from_header ∧
      strContains from_header "alice@ex.com" = false ∧
      (messages_in_thread.all (fun m => m.internalDate.isSome) = true →
        ∀ m ∈ messages_in_thread,
          m.internalDate.getD 0 ≤ last_message.internalDate.getD 0) :=
  fetch_record_invariant sampleEnvFresh "alice@ex.com" ⟨"a1", "t1"⟩
    { from_email := "bob@ex.com", to_email := "alice@ex.com", subject := "Hi",
      page_content := "hello", id := "a1", thread_id := "t1",
      send_time := "2024-01-01T09:00:00+00:00" }
    (by decide)

/-- C7 witness: a message whose lookup fails in the middle of a batch is
skipped while both neighbours are still processed. -/
theorem fetch_failure_isolated_witness :
    fetch_group_emails sampleEnvResponded "alice@ex.com" false
        ([⟨"a1", "t1"⟩] ++ ⟨"zz", "t9"⟩ :: [⟨"a1", "t1"⟩]) =
      fetch_group_emails sampleEnvResponded "alice@ex.com" false [⟨"a1", "t1"⟩] ++
      fetch_group_emails sampleEnvResponded "alice@ex.com" false [⟨"a1", "t1"⟩] :=
  fetch_failure_isolated sampleEnvResponded "alice@ex.com" false
    [⟨"a1", "t1"⟩] [⟨"a1", "t1"⟩] ⟨"zz", "t9"⟩ (by decide)

end GmailAgent
